import Mathlib

/-!
Verification of the napari layer slicing / multiscale thumbnail-cache
subsystem and of the unit-name conversion helpers.

The slicing and thumbnail-cache implementation (`ScalarFieldBase`,
`MultiScaleData`, the slicing state) is exercised by the repository's tests
in `napari/layers/_scalar_field/_tests/test_scalar_field.py` but its source
module is not part of the source snapshot; the definitions below for that
subsystem are therefore modelled from the specification (sections 2-4 and 8)
and from the behaviour the tests pin down.  The unit conversion functions
are translated directly from `napari/utils/transforms/_units.py`.
-/

set_option autoImplicit false

namespace Napari

/-- A concrete, fully materialized in-memory N-dimensional array: its shape
and (flattened) contents.  This is the model of a plain `numpy.ndarray`. -/
structure NDArray where
  shape : List Nat
  data : List Int
deriving Repr, DecidableEq

/-- Modelled from the spec: a data source array-like object, which is either
already concrete or lazy/out-of-core.  A lazy array wraps the concrete array
it would produce, together with a flag saying whether forcing it to concrete
form fails with an I/O or computation error (spec section 7). -/
inductive ArrayLike where
  | concrete (a : NDArray)
  | lazyArr (a : NDArray) (ioFails : Bool)
deriving Repr, DecidableEq

/-- The concrete array underlying an array-like data source. -/
def ArrayLike.base : ArrayLike → NDArray
  | .concrete a => a
  | .lazyArr a _ => a

/-- Shape introspection on an array-like (available without materializing). -/
def ArrayLike.shape (x : ArrayLike) : List Nat := x.base.shape

/-- Modelled from the spec: the `materialize()` capability - force a lazy or
remote array-like to a concrete in-memory array; may fail with an error. -/
def ArrayLike.materialize : ArrayLike → Except String NDArray
  | .concrete a => .ok a
  | .lazyArr a ioFails =>
      if ioFails then .error "materialization failed" else .ok a

/-- Modelled from the spec: `MultiScaleData` / the layer's dataset.  An
ordered sequence of levels (level 0 finest, last level coarsest), the
multiscale flag (a non-multiscale dataset is a single array, i.e. one
level), and the RGB flag. -/
structure Dataset where
  levels : List ArrayLike
  multiscale : Bool
  rgb : Bool
deriving Repr, DecidableEq

/-- Modelled from the spec: spatial dimensionality, computed from the finest
level's shape, with one trailing channel axis excluded when the RGB flag is
set (spec section 4.1 and glossary). -/
def Dataset.ndim (d : Dataset) : Nat :=
  match d.levels with
  | [] => 0
  | a :: _ => a.shape.length - (if d.rgb then 1 else 0)

/-- Modelled from the spec: the slicing state of a layer.  `ndimField` is
the owner's cached dimensionality attribute, which may lag behind a freshly
assigned dataset (spec section 9); `thumbnail_level` is the selected
thumbnail level index and `thumbnail_level_data` the optional eagerly
materialized copy of that level. -/
structure Layer where
  data : Dataset
  ndimField : Nat
  thumbnail_level : Nat
  thumbnail_level_data : Option NDArray
deriving Repr, DecidableEq

/-- Modelled from the spec: `_get_ndim`, the dimensionality recomputed as a
pure function of the current dataset reference (never the cached field). -/
def Layer.get_ndim (l : Layer) : Nat := l.data.ndim

/-- Modelled from the spec: `_reset_thumbnail_level_data` /
`ThumbnailLevelCache.reset` combined with the `_thumbnail_level` update of
`on_data_replaced` (spec section 4.2 and 4.4).  The thumbnail level becomes
the last level index; for a multiscale dataset whose freshly computed
spatial ndim is 2 the coarsest level is eagerly materialized into the cache,
otherwise the cache is cleared.  A materialization failure leaves the cache
empty and surfaces the error to the caller (the second component). -/
def Layer.reset_thumbnail_level_data (l : Layer) : Layer × Option String :=
  let cleared : Layer :=
    { l with
      thumbnail_level := l.data.levels.length - 1
      thumbnail_level_data := none }
  if l.data.multiscale ∧ l.get_ndim = 2 then
    match l.data.levels.getLast? with
    | none => (cleared, none)
    | some a =>
        match a.materialize with
        | .ok arr => ({ cleared with thumbnail_level_data := some arr }, none)
        | .error e => (cleared, some e)
  else (cleared, none)

/-- The layer record as it stands at the start of construction, before the
initial cache reset runs. -/
def Layer.init (d : Dataset) : Layer :=
  { data := d
    ndimField := d.ndim
    thumbnail_level := 0
    thumbnail_level_data := none }

/-- Modelled from the spec: layer construction - the initial cache state is
determined by the layer's initial data (spec section 4.4). -/
def Layer.create (d : Dataset) : Layer × Option String :=
  (Layer.init d).reset_thumbnail_level_data

/-- Modelled from the spec: the `data` setter / `on_data_replaced`.  The
dataset reference is swapped, the thumbnail level and cache are reset from
the freshly computed dimensionality of the new dataset, and only afterwards
is the owner's cached dimensionality field brought up to date (the ordering
hazard of spec section 9). -/
def Layer.setData (l : Layer) (d : Dataset) : Layer × Option String :=
  let r := Layer.reset_thumbnail_level_data { l with data := d }
  ({ r.1 with ndimField := d.ndim }, r.2)

/-- Modelled from the spec: the viewer dimensional state consumed by
`make_slice_request` (spec section 6). -/
structure Dims where
  ndim : Nat
  ndisplay : Nat
  range : List (Nat × Nat × Nat)
deriving Repr, DecidableEq

/-- Modelled from the spec: `SliceRequest`, the immutable value object built
from the dimension ranges, the display mode, and the thumbnail cache's
current array (spec section 4.3). -/
structure SliceRequest where
  dimension_ranges : List (Nat × Nat × Nat)
  ndisplay : Nat
  thumbnail_level_data : Option NDArray
deriving Repr, DecidableEq

/-- Modelled from the spec: `_make_slice_request` - build a `SliceRequest`
for the given dimensional state, attaching the current thumbnail cache
contents; malformed ranges (length mismatch with `ndim`) raise a validation
error (spec section 4.3). -/
def Layer.make_slice_request (l : Layer) (dims : Dims) :
    Except String SliceRequest :=
  if dims.range.length = dims.ndim then
    .ok
      { dimension_ranges := dims.range
        ndisplay := dims.ndisplay
        thumbnail_level_data := l.thumbnail_level_data }
  else .error "validation error: range length does not match ndim"

/-- Layer states reachable by construction followed by any sequence of data
replacements, whatever the reported outcome of each operation. -/
inductive LayerReachable : Layer → Prop where
  | create (d : Dataset) (l : Layer) (e : Option String) :
      Layer.create d = (l, e) → LayerReachable l
  | step (l : Layer) (d : Dataset) (l' : Layer) (e : Option String) :
      LayerReachable l → Layer.setData l d = (l', e) → LayerReachable l'

/-- Layer states reachable by construction followed by any sequence of data
replacements in which every materialization succeeded (no error surfaced). -/
inductive LayerReachableOk : Layer → Prop where
  | create (d : Dataset) (l : Layer) :
      Layer.create d = (l, none) → LayerReachableOk l
  | step (l : Layer) (d : Dataset) (l' : Layer) :
      LayerReachableOk l → Layer.setData l d = (l', none) → LayerReachableOk l'

/-! ## Unit name conversion, from `napari/utils/transforms/_units.py` -/

/-- A pint unit, identified by its canonical name.  The pint library itself
is an external collaborator; only the names resolved by its registry matter
to the wrapper functions under verification. -/
structure PintUnit where
  name : String
deriving Repr, DecidableEq

/-- The application registry's `pixel` unit. -/
def pixel_unit : PintUnit := ⟨"pixel"⟩

/-- A fragment of pint's `parse_expression`: resolve a unit name in the
application registry, `none` when the name is undefined
(`UndefinedUnitError`). -/
def parse_expression (s : String) : Option PintUnit :=
  if s = "m" ∨ s = "meter" then some ⟨"meter"⟩
  else if s = "s" ∨ s = "second" then some ⟨"second"⟩
  else if s = "px" ∨ s = "pixel" then some ⟨"pixel"⟩
  else if s = "um" ∨ s = "micrometer" then some ⟨"micrometer"⟩
  else none

/-- A Python value as far as `get_units_from_name` can distinguish one:
`None`, a `str`, a `pint.Unit`, a `Sequence` of further values, or any
other object (not a sequence, e.g. an `int` or a `dict`). -/
inductive PyObj where
  | pynone
  | pystr (s : String)
  | pyunit (u : PintUnit)
  | pyseq (xs : List PyObj)
  | pyother

/-- `get_unit_from_name`: a `pint.Unit` is returned unchanged, `None` maps
to the registry's pixel unit, a string is parsed (an undefined name falls
through the suppressed `UndefinedUnitError`), and anything else raises
`ValueError`. -/
def get_unit_from_name : PyObj → Except String PintUnit
  | .pyunit u => .ok u
  | .pynone => .ok pixel_unit
  | .pystr s =>
      match parse_expression s with
      | some u => .ok u
      | none => .error "ValueError: Could not find unit"
  | _ => .error "ValueError: Could not find unit"

/-- The result type of `get_units_from_name`: a single unit or a tuple. -/
inductive UnitsInfo where
  | single (u : PintUnit)
  | tuple (us : List PintUnit)
deriving Repr, DecidableEq

/-- Elementwise conversion of a sequence, as the generator expression
`tuple(get_unit_from_name(u) for u in units)`: the first failing element
aborts the whole conversion. -/
def convert_units_list : List PyObj → Except String (List PintUnit)
  | [] => .ok []
  | x :: xs => do
      let u ← get_unit_from_name x
      let us ← convert_units_list xs
      .ok (u :: us)

/-- `get_units_from_name`: strings and `None` go through
`get_unit_from_name`; a sequence is converted elementwise to a tuple;
everything else (including a bare `pint.Unit`, which matches none of the
`isinstance` checks) raises `ValueError`. -/
def get_units_from_name (units : PyObj) : Except String UnitsInfo :=
  match units with
  | .pystr s => (get_unit_from_name (.pystr s)).map .single
  | .pynone => (get_unit_from_name .pynone).map .single
  | .pyseq xs => (convert_units_list xs).map .tuple
  | _ => .error "ValueError: Could not find unit"

/-! ## Concrete datasets mirroring the repository's test inputs -/

/-- A two-level 2D multiscale dataset with shapes 128x128 and 64x64 (the
contents stand in for the random test data; only shape and identity
matter). -/
def ds2d : Dataset :=
  { levels := [.concrete ⟨[128, 128], [1]⟩, .concrete ⟨[64, 64], [2]⟩]
    multiscale := true
    rgb := false }

/-- A two-level 3D multiscale dataset with shapes 16x128x128 and 8x64x64. -/
def ds3d : Dataset :=
  { levels := [.concrete ⟨[16, 128, 128], [3]⟩, .concrete ⟨[8, 64, 64], [4]⟩]
    multiscale := true
    rgb := false }

/-- A three-level 2D multiscale dataset with shapes 90x90, 45x45, 22x22. -/
def ds2d3 : Dataset :=
  { levels :=
      [.concrete ⟨[90, 90], [5]⟩, .concrete ⟨[45, 45], [6]⟩,
        .concrete ⟨[22, 22], [7]⟩]
    multiscale := true
    rgb := false }

/-- A single-scale 2D dataset of shape 32x32. -/
def dsSingle : Dataset :=
  { levels := [.concrete ⟨[32, 32], [8]⟩], multiscale := false, rgb := false }

/-- A two-level RGB multiscale dataset with shapes 128x128x3 and 64x64x3. -/
def dsRgb : Dataset :=
  { levels := [.concrete ⟨[128, 128, 3], [9]⟩, .concrete ⟨[64, 64, 3], [10]⟩]
    multiscale := true
    rgb := true }

/-- A two-level 2D multiscale dataset whose coarsest level is lazy and
fails to materialize. -/
def dsFailing : Dataset :=
  { levels := [.concrete ⟨[64, 64], [11]⟩, .lazyArr ⟨[32, 32], [12]⟩ true]
    multiscale := true
    rgb := false }

/-! ## Behaviour of the cache reset -/

/-- A successful materialization always yields the underlying array. -/
theorem ArrayLike.materialize_ok {a : ArrayLike} {arr : NDArray}
    (h : a.materialize = .ok arr) : arr = a.base := by
  cases a with
  | concrete b => simpa [ArrayLike.materialize, ArrayLike.base] using h.symm
  | lazyArr b ioFails =>
      cases ioFails <;>
        simpa [ArrayLike.materialize, ArrayLike.base] using h.symm

/-- If the spatial dimensionality is positive the level list is nonempty,
hence has a last element. -/
theorem Dataset.getLast_isSome_of_ndim_pos {d : Dataset} (h : 0 < d.ndim) :
    d.levels.getLast?.isSome := by
  cases hl : d.levels with
  | nil => simp [Dataset.ndim, hl] at h
  | cons a as => simp [hl]

/-- Resetting never touches the dataset reference. -/
theorem Layer.reset_data (l : Layer) :
    l.reset_thumbnail_level_data.1.data = l.data := by
  unfold Layer.reset_thumbnail_level_data
  split
  · split
    · rfl
    · split <;> rfl
  · rfl

/-- Resetting never touches the owner's cached dimensionality field. -/
theorem Layer.reset_ndimField (l : Layer) :
    l.reset_thumbnail_level_data.1.ndimField = l.ndimField := by
  unfold Layer.reset_thumbnail_level_data
  split
  · split
    · rfl
    · split <;> rfl
  · rfl

/-- Resetting always selects the last level as the thumbnail level. -/
theorem Layer.reset_thumbnail_level_eq (l : Layer) :
    l.reset_thumbnail_level_data.1.thumbnail_level =
      l.data.levels.length - 1 := by
  unfold Layer.reset_thumbnail_level_data
  split
  · split
    · rfl
    · split <;> rfl
  · rfl

/-- When the dataset is not multiscale with spatial ndim 2, the reset
clears the cache and reports no error. -/
theorem Layer.reset_cache_of_not_guard (l : Layer)
    (h : ¬(l.data.multiscale = true ∧ l.data.ndim = 2)) :
    l.reset_thumbnail_level_data.1.thumbnail_level_data = none ∧
      l.reset_thumbnail_level_data.2 = none := by
  unfold Layer.reset_thumbnail_level_data
  rw [if_neg (by simpa [Layer.get_ndim] using h)]
  exact ⟨rfl, rfl⟩

/-- When the dataset is multiscale with spatial ndim 2 and the coarsest
level materializes successfully, the reset stores that level's concrete
array and reports no error. -/
theorem Layer.reset_cache_ok (l : Layer) (a : ArrayLike) (arr : NDArray)
    (hm : l.data.multiscale = true) (hnd : l.data.ndim = 2)
    (hlast : l.data.levels.getLast? = some a)
    (hok : a.materialize = .ok arr) :
    l.reset_thumbnail_level_data.1.thumbnail_level_data = some a.base ∧
      l.reset_thumbnail_level_data.2 = none := by
  obtain rfl := ArrayLike.materialize_ok hok
  unfold Layer.reset_thumbnail_level_data
  rw [if_pos (by exact ⟨hm, hnd⟩), hlast]
  simp [hok]

/-- When the dataset is multiscale with spatial ndim 2 but materializing the
coarsest level fails, the reset leaves the cache empty and surfaces the
error. -/
theorem Layer.reset_cache_err (l : Layer) (a : ArrayLike) (e : String)
    (hm : l.data.multiscale = true) (hnd : l.data.ndim = 2)
    (hlast : l.data.levels.getLast? = some a)
    (herr : a.materialize = .error e) :
    l.reset_thumbnail_level_data.1.thumbnail_level_data = none ∧
      l.reset_thumbnail_level_data.2 = some e := by
  unfold Layer.reset_thumbnail_level_data
  rw [if_pos (by exact ⟨hm, hnd⟩), hlast]
  simp [herr]

/-- C1: for every multiscale dataset, after layer construction or data
replacement the thumbnail cache reflects the reset policy: when the spatial
dimensionality is 2 the cache holds the concrete array underlying the
coarsest (last) level, and when the spatial dimensionality is 3 or more the
cache is absent.  Materialization is assumed to succeed here; failures are
treated separately. -/
theorem thumbnail_cache_reset_policy (d : Dataset) (l0 : Layer)
    (a : ArrayLike) (arr : NDArray)
    (hm : d.multiscale = true) (hlast : d.levels.getLast? = some a)
    (hok : a.materialize = .ok arr) :
    (d.ndim = 2 →
      (Layer.create d).1.thumbnail_level_data = some a.base ∧
        (l0.setData d).1.thumbnail_level_data = some a.base) ∧
    (3 ≤ d.ndim →
      (Layer.create d).1.thumbnail_level_data = none ∧
        (l0.setData d).1.thumbnail_level_data = none) := by
  constructor
  · intro hnd
    exact ⟨(Layer.reset_cache_ok _ a arr hm hnd hlast hok).1,
      (Layer.reset_cache_ok _ a arr hm hnd hlast hok).1⟩
  · intro hnd
    have hng : ¬(d.multiscale = true ∧ d.ndim = 2) := by
      rintro ⟨-, h2⟩; omega
    exact ⟨(Layer.reset_cache_of_not_guard _ hng).1,
      (Layer.reset_cache_of_not_guard _ hng).1⟩

/-- Witness for C1 at concrete 2D and 3D datasets. -/
theorem thumbnail_cache_reset_policy_witness :
    (Layer.create ds2d).1.thumbnail_level_data = some ⟨[64, 64], [2]⟩ ∧
      (Layer.create ds3d).1.thumbnail_level_data = none := by
  refine ⟨?_, ?_⟩
  · exact ((thumbnail_cache_reset_policy ds2d (Layer.create ds2d).1
      (.concrete ⟨[64, 64], [2]⟩) ⟨[64, 64], [2]⟩ rfl rfl rfl).1 rfl).1
  · exact ((thumbnail_cache_reset_policy ds3d (Layer.create ds3d).1
      (.concrete ⟨[8, 64, 64], [4]⟩) ⟨[8, 64, 64], [4]⟩ rfl rfl rfl).2
      (by decide)).1

/-- C2 as stated is refuted when the replacement changes the dimensionality
to 3D: replacing the two-level 2D dataset by a two-level 3D dataset sets
`_thumbnail_level` to the new last index, but the cache does not hold level
M-1 of the new dataset - it is cleared, because 3D multiscale data is not
eagerly materialized. -/
theorem data_replacement_counterexample :
    ((Layer.create ds2d).1.setData ds3d).1.thumbnail_level = 1 ∧
      ((Layer.create ds2d).1.setData ds3d).1.thumbnail_level_data ≠
        some ⟨[8, 64, 64], [4]⟩ ∧
      ((Layer.create ds2d).1.setData ds3d).1.thumbnail_level_data = none := by
  decide

/-- C2 (amended): replacing a layer's data with an M-level multiscale
dataset sets `_thumbnail_level` to M-1; the cache becomes level M-1 of the
new dataset when the new dataset's spatial ndim is 2, and is cleared when
it is not - in either case the result depends only on the new dataset, so
the cache never retains level L-1 of the old one.  Holds for every previous
layer state, in particular across 2D-to-3D and 3D-to-2D transitions. -/
theorem data_replacement_refreshes_thumbnail (l : Layer) (d : Dataset)
    (a : ArrayLike) (arr : NDArray)
    (hm : d.multiscale = true) (hlast : d.levels.getLast? = some a)
    (hok : a.materialize = .ok arr) :
    (l.setData d).1.thumbnail_level = d.levels.length - 1 ∧
      (d.ndim = 2 → (l.setData d).1.thumbnail_level_data = some a.base) ∧
      (d.ndim ≠ 2 → (l.setData d).1.thumbnail_level_data = none) := by
  refine ⟨Layer.reset_thumbnail_level_eq _, ?_, ?_⟩
  · intro hnd
    exact (Layer.reset_cache_ok _ a arr hm hnd hlast hok).1
  · intro hnd
    exact (Layer.reset_cache_of_not_guard _ (by rintro ⟨-, h2⟩; exact hnd h2)).1

/-- Witness for the amended C2: the spec's example scenario - replace the
128/64 two-level dataset by the 90/45/22 three-level one; the thumbnail
level becomes 2 and the cache the 22x22 level. -/
theorem data_replacement_refreshes_thumbnail_witness :
    ((Layer.create ds2d).1.setData ds2d3).1.thumbnail_level = 2 ∧
      ((Layer.create ds2d).1.setData ds2d3).1.thumbnail_level_data =
        some ⟨[22, 22], [7]⟩ := by
  have h := data_replacement_refreshes_thumbnail (Layer.create ds2d).1 ds2d3
    (.concrete ⟨[22, 22], [7]⟩) ⟨[22, 22], [7]⟩ rfl rfl rfl
  exact ⟨h.1, h.2.1 rfl⟩

/-- C3: the cache-reset decision after a data swap is computed from the
incoming dataset's true dimensionality.  Whatever stale value `k` the
owner's cached ndim field holds at the time the reset runs, `_get_ndim`
reflects the new data and the resulting cache state matches the new
dataset's spatial dimensionality alone. -/
theorem reset_uses_incoming_ndim (l : Layer) (d : Dataset) (k : Nat)
    (a : ArrayLike) (arr : NDArray)
    (hm : d.multiscale = true) (hlast : d.levels.getLast? = some a)
    (hok : a.materialize = .ok arr) :
    ({ l with data := d, ndimField := k } : Layer).get_ndim = d.ndim ∧
      (Layer.reset_thumbnail_level_data
          { l with data := d, ndimField := k }).1.thumbnail_level_data =
        if d.ndim = 2 then some a.base else none := by
  refine ⟨rfl, ?_⟩
  by_cases hnd : d.ndim = 2
  · rw [if_pos hnd]
    exact (Layer.reset_cache_ok _ a arr hm hnd hlast hok).1
  · rw [if_neg hnd]
    exact (Layer.reset_cache_of_not_guard _ (by rintro ⟨-, h2⟩; exact hnd h2)).1

/-- Witness for C3: swap in 3D data while the cached ndim field still says
2 (and a cache from the old 2D data is still held); after the reset the
cache is empty, matching the new data's dimensionality. -/
theorem reset_uses_incoming_ndim_witness :
    (Layer.reset_thumbnail_level_data
        { (Layer.create ds2d).1 with
          data := ds3d
          ndimField := 2 }).1.thumbnail_level_data = none := by
  have h := reset_uses_incoming_ndim (Layer.create ds2d).1 ds3d 2
    (.concrete ⟨[8, 64, 64], [4]⟩) ⟨[8, 64, 64], [4]⟩ rfl rfl rfl
  rw [h.2]
  decide

/-- A reset that reports no error establishes the cache invariant: the
cache is non-null exactly when the dataset is multiscale with spatial
dimensionality 2. -/
theorem Layer.reset_invariant (l : Layer)
    (hok : l.reset_thumbnail_level_data.2 = none) :
    l.reset_thumbnail_level_data.1.thumbnail_level_data ≠ none ↔
      (l.data.multiscale = true ∧ l.data.ndim = 2) := by
  by_cases hg : l.data.multiscale = true ∧ l.data.ndim = 2
  · obtain ⟨hm, hnd⟩ := hg
    obtain ⟨a, hlast⟩ := Option.isSome_iff_exists.mp
      (Dataset.getLast_isSome_of_ndim_pos (d := l.data) (by omega))
    cases hmat : a.materialize with
    | ok arr =>
        simp only [(Layer.reset_cache_ok l a arr hm hnd hlast hmat).1]
        simp [hm, hnd]
    | error e =>
        have := (Layer.reset_cache_err l a e hm hnd hlast hmat).2
        rw [this] at hok
        exact absurd hok (by simp)
  · simp only [(Layer.reset_cache_of_not_guard l hg).1]
    simp [hg]

/-- The dataset held after construction is the constructing dataset. -/
theorem Layer.create_data (d : Dataset) : (Layer.create d).1.data = d :=
  Layer.reset_data (Layer.init d)

/-- The dataset held after a data replacement is the new dataset. -/
theorem Layer.setData_data (l : Layer) (d : Dataset) :
    (l.setData d).1.data = d :=
  Layer.reset_data { l with data := d }

/-- The cache invariant after an error-free construction. -/
theorem Layer.create_invariant (d : Dataset)
    (hok : (Layer.create d).2 = none) :
    (Layer.create d).1.thumbnail_level_data ≠ none ↔
      (d.multiscale = true ∧ d.ndim = 2) :=
  Layer.reset_invariant (Layer.init d) hok

/-- The cache invariant after an error-free data replacement. -/
theorem Layer.setData_invariant (l : Layer) (d : Dataset)
    (hok : (l.setData d).2 = none) :
    (l.setData d).1.thumbnail_level_data ≠ none ↔
      (d.multiscale = true ∧ d.ndim = 2) :=
  Layer.reset_invariant { l with data := d } hok

/-- C4 as stated is refuted by a single-scale 2D dataset: after
construction the dataset's spatial dimensionality is 2, yet the thumbnail
cache is absent because the dataset is not multiscale. -/
theorem cache_iff_ndim2_counterexample :
    ¬(((Layer.create dsSingle).1.thumbnail_level_data ≠ none) ↔
        (Layer.create dsSingle).1.data.ndim = 2) := by
  decide

/-- C4 (amended): in every reachable state of a layer (after construction
and any sequence of data replacements, with every materialization
succeeding), the thumbnail cache is non-null if and only if the current
dataset is multiscale and its spatial dimensionality is 2. -/
theorem cache_invariant (l : Layer) (h : LayerReachableOk l) :
    l.thumbnail_level_data ≠ none ↔
      (l.data.multiscale = true ∧ l.data.ndim = 2) := by
  induction h with
  | create d l' hc =>
      rw [Prod.ext_iff] at hc
      obtain ⟨h1, h2⟩ := hc
      subst h1
      rw [Layer.create_data]
      exact Layer.create_invariant d h2
  | step l' d l'' hr hstep ih =>
      rw [Prod.ext_iff] at hstep
      obtain ⟨h1, h2⟩ := hstep
      subst h1
      rw [Layer.setData_data]
      exact Layer.setData_invariant l' d h2

/-- Witness for the amended C4 at a concrete 2D multiscale layer. -/
theorem cache_invariant_witness :
    (Layer.create ds2d).1.thumbnail_level_data ≠ none ↔
      ((Layer.create ds2d).1.data.multiscale = true ∧
        (Layer.create ds2d).1.data.ndim = 2) :=
  cache_invariant _ (LayerReachableOk.create ds2d _ rfl)

/-- C5: a layer whose current dataset is single-level (non-multiscale)
holds no thumbnail cache, in every reachable state - after construction and
after any sequence of data replacements, whatever their outcomes and
whatever the dataset's dimensionality. -/
theorem single_scale_no_cache (l : Layer) (h : LayerReachable l)
    (hs : l.data.multiscale = false) : l.thumbnail_level_data = none := by
  induction h with
  | create d l' e hc =>
      rw [Prod.ext_iff] at hc
      obtain ⟨h1, -⟩ := hc
      subst h1
      rw [Layer.create_data] at hs
      have hng : ¬(d.multiscale = true ∧ d.ndim = 2) := by
        rintro ⟨hm, -⟩
        rw [hs] at hm
        cases hm
      exact (Layer.reset_cache_of_not_guard (Layer.init d) hng).1
  | step l' d l'' e hr hstep ih =>
      rw [Prod.ext_iff] at hstep
      obtain ⟨h1, -⟩ := hstep
      subst h1
      rw [Layer.setData_data] at hs
      have hng : ¬(d.multiscale = true ∧ d.ndim = 2) := by
        rintro ⟨hm, -⟩
        rw [hs] at hm
        cases hm
      exact (Layer.reset_cache_of_not_guard { l' with data := d } hng).1

/-- Witness for C5 at the concrete single-scale 2D dataset. -/
theorem single_scale_no_cache_witness :
    (Layer.create dsSingle).1.thumbnail_level_data = none :=
  single_scale_no_cache _ (LayerReachable.create dsSingle _ none rfl) rfl

/-- C6: `make_slice_request` on a layer whose dataset is 2D multiscale
returns a request whose `thumbnail_level_data` equals the cached thumbnail
array; on a 3D (or higher) multiscale layer, which holds no cache, the
returned request's `thumbnail_level_data` is absent. -/
theorem slice_request_carries_thumbnail (d : Dataset) (dims : Dims)
    (a : ArrayLike) (arr : NDArray)
    (hm : d.multiscale = true) (hlast : d.levels.getLast? = some a)
    (hok : a.materialize = .ok arr)
    (hdims : dims.range.length = dims.ndim) :
    (d.ndim = 2 →
      (Layer.create d).1.thumbnail_level_data = some a.base ∧
        (Layer.create d).1.make_slice_request dims =
          .ok ⟨dims.range, dims.ndisplay, some a.base⟩) ∧
    (3 ≤ d.ndim →
      (Layer.create d).1.make_slice_request dims =
        .ok ⟨dims.range, dims.ndisplay, none⟩) := by
  constructor
  · intro hnd
    have hc : (Layer.create d).1.thumbnail_level_data = some a.base :=
      (Layer.reset_cache_ok (Layer.init d) a arr hm hnd hlast hok).1
    refine ⟨hc, ?_⟩
    unfold Layer.make_slice_request
    rw [if_pos hdims, hc]
  · intro hnd
    have hng : ¬(d.multiscale = true ∧ d.ndim = 2) := by
      rintro ⟨-, h2⟩; omega
    have hc : (Layer.create d).1.thumbnail_level_data = none :=
      (Layer.reset_cache_of_not_guard (Layer.init d) hng).1
    unfold Layer.make_slice_request
    rw [if_pos hdims, hc]

/-- Witness for C6 at the concrete 2D and 3D multiscale datasets, with a
well-formed dimensional state matching each dataset. -/
theorem slice_request_carries_thumbnail_witness :
    (Layer.create ds2d).1.make_slice_request
        ⟨2, 2, [(0, 127, 1), (0, 127, 1)]⟩ =
      .ok ⟨[(0, 127, 1), (0, 127, 1)], 2, some ⟨[64, 64], [2]⟩⟩ ∧
    (Layer.create ds3d).1.make_slice_request
        ⟨3, 2, [(0, 15, 1), (0, 127, 1), (0, 127, 1)]⟩ =
      .ok ⟨[(0, 15, 1), (0, 127, 1), (0, 127, 1)], 2, none⟩ := by
  constructor
  · exact ((slice_request_carries_thumbnail ds2d
      ⟨2, 2, [(0, 127, 1), (0, 127, 1)]⟩
      (.concrete ⟨[64, 64], [2]⟩) ⟨[64, 64], [2]⟩ rfl rfl rfl rfl).1 rfl).2
  · exact (slice_request_carries_thumbnail ds3d
      ⟨3, 2, [(0, 15, 1), (0, 127, 1), (0, 127, 1)]⟩
      (.concrete ⟨[8, 64, 64], [4]⟩) ⟨[8, 64, 64], [4]⟩ rfl rfl rfl rfl).2
      (by decide)

/-- C7: for an RGB multiscale dataset whose levels have shape (H, W, 3),
the reported spatial ndim is 2 (the trailing channel axis is excluded), the
thumbnail cache is eagerly materialized at construction, and the cached
array keeps the coarsest level's full shape including the trailing 3. -/
theorem rgb_multiscale_prematerialized (d : Dataset)
    (a0 a : ArrayLike) (arr : NDArray) (h0 w0 h1 w1 : Nat)
    (hm : d.multiscale = true) (hrgb : d.rgb = true)
    (hhead : d.levels.head? = some a0) (hshape0 : a0.shape = [h0, w0, 3])
    (hlast : d.levels.getLast? = some a) (hshape1 : a.shape = [h1, w1, 3])
    (hok : a.materialize = .ok arr) :
    d.ndim = 2 ∧
      (Layer.create d).1.thumbnail_level_data = some a.base ∧
      a.base.shape = [h1, w1, 3] := by
  have hnd : d.ndim = 2 := by
    cases hl : d.levels with
    | nil => rw [hl] at hhead; cases hhead
    | cons x xs =>
        rw [hl] at hhead
        simp at hhead
        subst hhead
        simp [Dataset.ndim, hl, hrgb, hshape0]
  exact ⟨hnd,
    (Layer.reset_cache_ok (Layer.init d) a arr hm hnd hlast hok).1, hshape1⟩

/-- Witness for C7 at the concrete two-level RGB dataset. -/
theorem rgb_multiscale_prematerialized_witness :
    dsRgb.ndim = 2 ∧
      (Layer.create dsRgb).1.thumbnail_level_data =
        some ⟨[64, 64, 3], [10]⟩ ∧
      (NDArray.mk [64, 64, 3] [10]).shape = [64, 64, 3] :=
  rgb_multiscale_prematerialized dsRgb
    (.concrete ⟨[128, 128, 3], [9]⟩) (.concrete ⟨[64, 64, 3], [10]⟩)
    ⟨[64, 64, 3], [10]⟩ 128 128 64 64 rfl rfl rfl rfl rfl rfl rfl

/-- C8: if materializing the thumbnail level fails during a data
replacement reset, the error is surfaced to the caller of the reset and the
cache is left empty - never half-populated and never retaining the previous
dataset's thumbnail contents. -/
theorem materialization_failure_clears_cache (l : Layer) (d : Dataset)
    (a : ArrayLike) (e : String)
    (hm : d.multiscale = true) (hnd : d.ndim = 2)
    (hlast : d.levels.getLast? = some a)
    (herr : a.materialize = .error e) :
    (l.setData d).2 = some e ∧
      (l.setData d).1.thumbnail_level_data = none := by
  have h := Layer.reset_cache_err { l with data := d } a e hm hnd hlast herr
  exact ⟨h.2, h.1⟩

/-- Witness for C8: a layer holding a cache from 2D data is given a 2D
multiscale dataset whose coarsest level fails to materialize; the error is
surfaced and the cache ends empty rather than keeping the old array. -/
theorem materialization_failure_clears_cache_witness :
    ((Layer.create ds2d).1.setData dsFailing).2 =
        some "materialization failed" ∧
      ((Layer.create ds2d).1.setData dsFailing).1.thumbnail_level_data =
        none :=
  materialization_failure_clears_cache (Layer.create ds2d).1 dsFailing
    (.lazyArr ⟨[32, 32], [12]⟩ true) "materialization failed" rfl rfl rfl rfl

/-! ## Unit name conversion theorems -/

/-- A successful elementwise conversion preserves the length and converts
each element through `get_unit_from_name`. -/
theorem convert_units_list_spec (xs : List PyObj) (us : List PintUnit)
    (h : convert_units_list xs = .ok us) :
    us.length = xs.length ∧
      ∀ (i : Nat) (hx : i < xs.length) (hu : i < us.length),
        get_unit_from_name (xs.get ⟨i, hx⟩) = .ok (us.get ⟨i, hu⟩) := by
  induction xs generalizing us with
  | nil =>
      simp only [convert_units_list] at h
      obtain rfl : ([] : List PintUnit) = us := by injection h
      exact ⟨rfl, fun i hx hu => absurd hx (by simp)⟩
  | cons x xs ih =>
      simp only [convert_units_list, bind, Except.bind] at h
      cases hg : get_unit_from_name x with
      | error e => rw [hg] at h; cases h
      | ok u =>
          rw [hg] at h
          cases hc : convert_units_list xs with
          | error e => rw [hc] at h; cases h
          | ok us' =>
              rw [hc] at h
              obtain rfl : u :: us' = us := by injection h
              obtain ⟨hlen, helt⟩ := ih us' hc
              refine ⟨by simp [hlen], ?_⟩
              intro i hx hu
              cases i with
              | zero => simpa using hg
              | succ j =>
                  simpa using helt j (by simpa using hx) (by simpa using hu)

/-- C10: `get_units_from_name` applied to `None` returns the application
registry's pixel unit (not `None`, despite the overload annotation); applied
to a sequence it returns a tuple of the same length whose elements are the
elementwise conversions through `get_unit_from_name`; and applied to any
value that is neither `None`, a string, a `pint.Unit`, nor a sequence, it
raises `ValueError`. -/
theorem get_units_from_name_spec :
    get_units_from_name .pynone = .ok (.single pixel_unit) ∧
      (∀ (xs : List PyObj) (us : List PintUnit),
        convert_units_list xs = .ok us →
          get_units_from_name (.pyseq xs) = .ok (.tuple us) ∧
            us.length = xs.length ∧
            ∀ (i : Nat) (hx : i < xs.length) (hu : i < us.length),
              get_unit_from_name (xs.get ⟨i, hx⟩) = .ok (us.get ⟨i, hu⟩)) ∧
      get_units_from_name .pyother =
        .error "ValueError: Could not find unit" := by
  refine ⟨rfl, ?_, rfl⟩
  intro xs us h
  obtain ⟨hlen, helt⟩ := convert_units_list_spec xs us h
  refine ⟨?_, hlen, helt⟩
  simp only [get_units_from_name, h, Except.map]

/-- Witness for C10's sequence clause: a mixed sequence of a unit name, a
`None`, and a bare `pint.Unit` converts elementwise to a tuple. -/
theorem get_units_from_name_spec_witness :
    get_units_from_name
        (.pyseq [.pystr "m", .pynone, .pyunit ⟨"second"⟩]) =
      .ok (.tuple [⟨"meter"⟩, ⟨"pixel"⟩, ⟨"second"⟩]) :=
  (get_units_from_name_spec.2.1
    [.pystr "m", .pynone, .pyunit ⟨"second"⟩]
    [⟨"meter"⟩, ⟨"pixel"⟩, ⟨"second"⟩] rfl).1

end Napari
